import Mathlib

/-!
Verification of the request-building facades of a Watson service client
library (Personality Insights, Tone Analyzer, Visual Recognition).

Each facade method validates required parameters, assembles a call
descriptor (url, method, query string, body or form data) together with
merged default options, and forwards both to a shared request helper.
This file embeds those facades shallowly: JavaScript values become the
inductive JSVal, parameter objects become association lists, and each
facade method becomes a pure function from its configuration state and
parameter mapping to an outcome plus the post-call configuration state
(the source merges per-call headers into the shared options object in
place, so the post-call state is returned explicitly).
-/

/-- A JavaScript value as far as the facades inspect one: the undefined
sentinel, null, booleans, strings and numbers. Composite payloads
(content objects, file data) are carried opaquely as strings here, since
the facades never look inside them. -/
inductive JSVal where
  | undef : JSVal
  | null : JSVal
  | bool (b : Bool) : JSVal
  | str (s : String) : JSVal
  | num (n : Int) : JSVal
deriving DecidableEq, Repr

/-- Association-list lookup by key, first match wins. Models property
lookup on a JavaScript object (object literals in the source never bind
a key twice). -/
def alookup {α : Type} : List (String × α) → String → Option α
  | [], _ => none
  | (k, v) :: rest, key => if k = key then some v else alookup rest key

/-- A parameter object: a finite mapping from property names to values. -/
abbrev ParamsMap : Type := List (String × JSVal)

/-- Property access on a JavaScript object: an absent property reads as
the undefined sentinel. -/
def jget (P : ParamsMap) (k : String) : JSVal :=
  (alookup P k).getD JSVal.undef

/-- Assignment target[k] = v on an object modelled as an association
list: an existing binding is updated in place (keeping its position), a
new key is appended. -/
def setKey : List (String × JSVal) → String → JSVal → List (String × JSVal)
  | [], k, v => [(k, v)]
  | (k0, v0) :: rest, k, v =>
      if k0 = k then (k, v) :: rest else (k0, v0) :: setKey rest k v

/-- One level of extend(true, target, src) from the extend package as
the facades use it on header objects: every source property whose value
is defined is assigned onto the target, in source order; properties
whose value is the undefined sentinel are skipped. -/
def extendSkipUndef (target : List (String × JSVal)) :
    List (String × JSVal) → List (String × JSVal)
  | [] => target
  | (k, v) :: rest =>
      extendSkipUndef (if v = JSVal.undef then target else setKey target k v) rest

/-- The per-instance configuration stored on a facade as this._options:
resolved base url, credentials, the version date, query-string defaults
and default headers. BaseService populates it at construction. -/
structure SvcOptions where
  url : String
  username : JSVal
  password : JSVal
  version_date : JSVal
  qs : List (String × JSVal)
  headers : List (String × JSVal)
deriving DecidableEq, Repr

/-- The source expression extend(true, this._options, \x7b headers: H \x7d):
a deep merge of a one-key object into the options object. Only the
headers member is affected, and the headers of H overwrite those of the
target except where H holds the undefined sentinel. The extend call
mutates and returns this._options itself, so the merged value is both
the defaultOptions handed to the request helper and the facade state
seen by every later call. -/
def mergeCallHeaders (o : SvcOptions) (h : List (String × JSVal)) : SvcOptions :=
  { o with headers := extendSkipUndef o.headers h }

/-- Modelled from the spec: helper.getMissingParams lives in
lib/helper which is not under src/. Spec 4.1: for each required key, in
order, the key is missing if params lacks the key entirely or binds it
to the absent/undefined sentinel; the returned sequence preserves the
order of the required list and is empty exactly when validation
passes. -/
def getMissingParams (P : ParamsMap) (R : List String) : List String :=
  R.filter (fun k => jget P k = JSVal.undef)

/-- A piece of multipart form data: either a plain field value or a
binary attachment descriptor carrying data and a declared content
type. -/
inductive FormVal where
  | plain (v : JSVal) : FormVal
  | file (data : JSVal) (contentType : String) : FormVal
deriving DecidableEq, Repr

/-- Modelled from the spec: helper.buildRequestFileObject lives in
lib/helper which is not under src/. Spec 3 and 6.4: binary form parts
are attachment descriptors carrying the data and their declared content
type; the facades always pass the content type explicitly. -/
def buildRequestFileObject (data : JSVal) (contentType : String) : FormVal :=
  FormVal.file data contentType

/-- The options member of the descriptor built by the body-carrying
operations profile, profile_csv and tone: url, method, the json
serialization flag, the body and the query mapping. -/
structure ReqOptions where
  url : String
  method : String
  json : Bool
  body : JSVal
  qs : List (String × JSVal)
deriving DecidableEq, Repr

/-- The options member of the descriptor built by the multipart
operations classify, detectFaces and createClassifier. -/
structure FormOptions where
  url : String
  method : String
  formData : List (String × FormVal)
deriving DecidableEq, Repr

/-- The options member of the descriptor built by updateClassifier,
which adds a path-parameter mapping to the multipart shape. -/
structure PathFormOptions where
  url : String
  method : String
  path : List (String × JSVal)
  formData : List (String × FormVal)
deriving DecidableEq, Repr

/-- What a facade operation does after parameter validation: either the
supplied callback is invoked (once) with the missing-parameters error
and nothing is dispatched, or a descriptor of shape δ together with the
merged defaultOptions is forwarded to the request helper. -/
inductive OpOutcome (δ : Type) where
  | callbackError (missing : List String) : OpOutcome δ
  | dispatched (options : δ) (defaultOptions : SvcOptions) : OpOutcome δ
deriving DecidableEq

/-- The construction-time options object, with the members BaseService
consumes. -/
structure CtorOptions where
  url : Option String
  username : JSVal
  password : JSVal
  version_date : JSVal
  headers : List (String × JSVal)
deriving DecidableEq, Repr

/-- Modelled from the spec: lib/base_service is not under src/. Spec
2, 4.3 and 6 describe it as the session type that merges the
construction options over the service default base url and stores
credentials, default headers and the version date on this._options; the
query-string defaults start empty (the facade constructor then pins the
version). -/
def baseServiceInit (defaultUrl : String) (o : CtorOptions) : SvcOptions :=
  { url := o.url.getD defaultUrl
    username := o.username
    password := o.password
    version_date := o.version_date
    qs := []
    headers := o.headers }

namespace PersonalityInsightsV3Generated

/-- Service default endpoint of PersonalityInsightsV3Generated. -/
def URL : String := "https://gateway.watsonplatform.net/personality-insights/api"

/-- The PersonalityInsightsV3Generated constructor: BaseService.call,
then the version_date presence check (throwing the argument error when
it is undefined), then pinning qs.version to the supplied version
date. -/
def construct (options : CtorOptions) : Except String SvcOptions :=
  let s := baseServiceInit URL options
  if s.version_date = JSVal.undef then
    Except.error "Argument error: version_date was not specified"
  else
    Except.ok { s with qs := setKey s.qs "version" options.version_date }

/-- The descriptor-and-state construction of profile once validation is
passed: body from params.content, query from the three optional score
flags, json flag from strict equality of content_type with
application/json, and headers merged destructively into this._options
by extend. Returns the parameters record pair and the post-call
state. -/
def profileRequest (self : SvcOptions) (params : ParamsMap) :
    ReqOptions × SvcOptions :=
  let body := jget params "content"
  let query := [("raw_scores", jget params "raw_scores"),
                ("csv_headers", jget params "csv_headers"),
                ("consumption_preferences", jget params "consumption_preferences")]
  let defaultOptions := mergeCallHeaders self
      [("accept", JSVal.str "application/json"),
       ("content-type", jget params "content_type"),
       ("content-language", jget params "content_language"),
       ("accept-language", jget params "accept_language")]
  ({ url := "/v3/profile"
     method := "POST"
     json := decide (jget params "content_type" = JSVal.str "application/json")
     body := body
     qs := query }, defaultOptions)

/-- PersonalityInsightsV3Generated.prototype.profile: validate the two
required parameters, stop in the callback when some are missing and a
callback was given, otherwise build the descriptor and dispatch.
Returns the outcome and the facade state after the call. -/
def profile (self : SvcOptions) (params : ParamsMap) (hasCallback : Bool) :
    OpOutcome ReqOptions × SvcOptions :=
  let requiredParams := ["content", "content_type"]
  let missingParams := getMissingParams params requiredParams
  if missingParams ≠ [] ∧ hasCallback then
    (OpOutcome.callbackError missingParams, self)
  else
    let (r, d) := profileRequest self params
    (OpOutcome.dispatched r d, d)

end PersonalityInsightsV3Generated

namespace PersonalityInsightsV3

/-- The descriptor-and-state construction of profile_csv (the manual
subclass method in personality-insights/v3.ts): byte-for-byte the same
as profile except that the accept header is text/csv. -/
def profileCsvRequest (self : SvcOptions) (params : ParamsMap) :
    ReqOptions × SvcOptions :=
  let body := jget params "content"
  let query := [("raw_scores", jget params "raw_scores"),
                ("csv_headers", jget params "csv_headers"),
                ("consumption_preferences", jget params "consumption_preferences")]
  let defaultOptions := mergeCallHeaders self
      [("accept", JSVal.str "text/csv"),
       ("content-type", jget params "content_type"),
       ("content-language", jget params "content_language"),
       ("accept-language", jget params "accept_language")]
  ({ url := "/v3/profile"
     method := "POST"
     json := decide (jget params "content_type" = JSVal.str "application/json")
     body := body
     qs := query }, defaultOptions)

/-- PersonalityInsightsV3.prototype.profile_csv: same validation and
dispatch shape as profile. -/
def profile_csv (self : SvcOptions) (params : ParamsMap) (hasCallback : Bool) :
    OpOutcome ReqOptions × SvcOptions :=
  let requiredParams := ["content", "content_type"]
  let missingParams := getMissingParams params requiredParams
  if missingParams ≠ [] ∧ hasCallback then
    (OpOutcome.callbackError missingParams, self)
  else
    let (r, d) := profileCsvRequest self params
    (OpOutcome.dispatched r d, d)

end PersonalityInsightsV3

namespace ToneAnalyzerV3

/-- Service default endpoint of ToneAnalyzerV3. -/
def URL : String := "https://gateway.watsonplatform.net/tone-analyzer/api"

/-- The ToneAnalyzerV3 constructor: BaseService.call, the version_date
presence check (its argument error carries a trailing fragment in the
source), then pinning qs.version. -/
def construct (options : CtorOptions) : Except String SvcOptions :=
  let s := baseServiceInit URL options
  if s.version_date = JSVal.undef then
    Except.error "Argument error: version_date was not specified, use "
  else
    Except.ok { s with qs := setKey s.qs "version" options.version_date }

/-- The descriptor-and-state construction of tone once validation is
passed: body from params.tone_input, query from sentences and tones,
json flag from strict equality of content_type with application/json,
headers merged destructively into this._options by extend. -/
def toneRequest (self : SvcOptions) (params : ParamsMap) :
    ReqOptions × SvcOptions :=
  let body := jget params "tone_input"
  let query := [("sentences", jget params "sentences"),
                ("tones", jget params "tones")]
  let defaultOptions := mergeCallHeaders self
      [("accept", JSVal.str "application/json"),
       ("content-type", jget params "content_type"),
       ("content-language", jget params "content_language"),
       ("accept-language", jget params "accept_language")]
  ({ url := "/v3/tone"
     method := "POST"
     json := decide (jget params "content_type" = JSVal.str "application/json")
     body := body
     qs := query }, defaultOptions)

/-- ToneAnalyzerV3.prototype.tone: validate tone_input and
content_type, stop in the callback when some are missing and a callback
was given, otherwise build the descriptor and dispatch. -/
def tone (self : SvcOptions) (params : ParamsMap) (hasCallback : Bool) :
    OpOutcome ReqOptions × SvcOptions :=
  let requiredParams := ["tone_input", "content_type"]
  let missingParams := getMissingParams params requiredParams
  if missingParams ≠ [] ∧ hasCallback then
    (OpOutcome.callbackError missingParams, self)
  else
    let (r, d) := toneRequest self params
    (OpOutcome.dispatched r d, d)

end ToneAnalyzerV3

namespace VisualRecognitionV3

/-- Service default endpoint of VisualRecognitionV3. -/
def URL : String := "https://gateway.watsonplatform.net/visual-recognition/api"

/-- The VisualRecognitionV3 constructor: BaseService.call, the
version_date presence check, then pinning qs.version. -/
def construct (options : CtorOptions) : Except String SvcOptions :=
  let s := baseServiceInit URL options
  if s.version_date = JSVal.undef then
    Except.error "Argument error: version_date was not specified"
  else
    Except.ok { s with qs := setKey s.qs "version" options.version_date }

/-- VisualRecognitionV3.prototype.classify, which has no required
parameters: form data holds the images_file attachment (whose declared
content type is written with literal double quotes in the source) and
the plain parameters field; headers (note the underscored
accept_language key, as in the source) are merged destructively into
this._options. -/
def classify (self : SvcOptions) (params : ParamsMap) :
    OpOutcome FormOptions × SvcOptions :=
  let formData :=
    [("images_file",
      buildRequestFileObject (jget params "images_file") "\"application/octet-stream\""),
     ("parameters", FormVal.plain (jget params "parameters"))]
  let defaultOptions := mergeCallHeaders self
      [("accept", JSVal.str "application/json"),
       ("content-type", JSVal.str "multipart/form-data"),
       ("accept_language", jget params "accept_language")]
  (OpOutcome.dispatched
     { url := "/v3/classify", method := "POST", formData := formData }
     defaultOptions,
   defaultOptions)

/-- VisualRecognitionV3.prototype.detectFaces, no required parameters:
same form-data shape as classify (including the quoted content type in
the source), without the accept_language header. -/
def detectFaces (self : SvcOptions) (params : ParamsMap) :
    OpOutcome FormOptions × SvcOptions :=
  let formData :=
    [("images_file",
      buildRequestFileObject (jget params "images_file") "\"application/octet-stream\""),
     ("parameters", FormVal.plain (jget params "parameters"))]
  let defaultOptions := mergeCallHeaders self
      [("accept", JSVal.str "application/json"),
       ("content-type", JSVal.str "multipart/form-data")]
  (OpOutcome.dispatched
     { url := "/v3/detect_faces", method := "POST", formData := formData }
     defaultOptions,
   defaultOptions)

/-- VisualRecognitionV3.prototype.createClassifier: validates name and
classname_positive_examples, then builds multipart form data whose two
attachment descriptors declare content type application/octet-stream
(unquoted here, unlike classify). -/
def createClassifier (self : SvcOptions) (params : ParamsMap) (hasCallback : Bool) :
    OpOutcome FormOptions × SvcOptions :=
  let requiredParams := ["name", "classname_positive_examples"]
  let missingParams := getMissingParams params requiredParams
  if missingParams ≠ [] ∧ hasCallback then
    (OpOutcome.callbackError missingParams, self)
  else
    let formData :=
      [("name", FormVal.plain (jget params "name")),
       ("classname_positive_examples",
        buildRequestFileObject (jget params "classname_positive_examples")
          "application/octet-stream"),
       ("negative_examples",
        buildRequestFileObject (jget params "negative_examples")
          "application/octet-stream")]
    let defaultOptions := mergeCallHeaders self
        [("accept", JSVal.str "application/json"),
         ("content-type", JSVal.str "multipart/form-data")]
    (OpOutcome.dispatched
       { url := "/v3/classifiers", method := "POST", formData := formData }
       defaultOptions,
     defaultOptions)

/-- VisualRecognitionV3.prototype.updateClassifier: validates
classifier_id, then builds a path mapping plus multipart form data with
unquoted application/octet-stream attachments. -/
def updateClassifier (self : SvcOptions) (params : ParamsMap) (hasCallback : Bool) :
    OpOutcome PathFormOptions × SvcOptions :=
  let requiredParams := ["classifier_id"]
  let missingParams := getMissingParams params requiredParams
  if missingParams ≠ [] ∧ hasCallback then
    (OpOutcome.callbackError missingParams, self)
  else
    let formData :=
      [("classname_positive_examples",
        buildRequestFileObject (jget params "classname_positive_examples")
          "application/octet-stream"),
       ("negative_examples",
        buildRequestFileObject (jget params "negative_examples")
          "application/octet-stream")]
    let path := [("classifier_id", jget params "classifier_id")]
    let defaultOptions := mergeCallHeaders self
        [("accept", JSVal.str "application/json"),
         ("content-type", JSVal.str "multipart/form-data")]
    (OpOutcome.dispatched
       { url := "/v3/classifiers/{classifier_id}", method := "POST",
         path := path, formData := formData }
       defaultOptions,
     defaultOptions)

end VisualRecognitionV3

/-! Association-list lemmas used by the header theorems. -/

/-- Assigning key k and then reading k gives the assigned value. -/
theorem alookup_setKey_self (l : List (String × JSVal)) (k : String) (v : JSVal) :
    alookup (setKey l k v) k = some v := by
  induction l with
  | nil => simp [setKey, alookup]
  | cons p rest ih =>
    obtain ⟨k0, v0⟩ := p
    by_cases h : k0 = k
    · simp [setKey, alookup, h]
    · simp [setKey, alookup, h, ih]

/-- Assigning key k leaves the reading of any other key unchanged. -/
theorem alookup_setKey_ne (l : List (String × JSVal)) (k k1 : String) (v : JSVal)
    (h : k ≠ k1) :
    alookup (setKey l k v) k1 = alookup l k1 := by
  induction l with
  | nil => simp [setKey, alookup, h]
  | cons p rest ih =>
    obtain ⟨k0, v0⟩ := p
    by_cases h0 : k0 = k
    · simp [setKey, alookup, h0, h]
    · simp only [setKey, alookup, if_neg h0]
      by_cases h1 : k0 = k1
      · simp [alookup, h1]
      · simp [alookup, h1, ih]

/-- Merging a source object none of whose keys is k leaves the reading
of k unchanged. -/
theorem alookup_extendSkipUndef_ne (src : List (String × JSVal))
    (l : List (String × JSVal)) (k : String) (h : ∀ p ∈ src, p.1 ≠ k) :
    alookup (extendSkipUndef l src) k = alookup l k := by
  induction src generalizing l with
  | nil => rfl
  | cons p rest ih =>
    obtain ⟨k0, v0⟩ := p
    have hrest : ∀ q ∈ rest, q.1 ≠ k := fun q hq => h q (List.mem_cons_of_mem _ hq)
    have hk0 : k0 ≠ k := h (k0, v0) (List.mem_cons_self _ _)
    simp only [extendSkipUndef]
    split
    · exact ih l hrest
    · rw [ih _ hrest, alookup_setKey_ne _ _ _ _ hk0]

/-- Merging the same source object over two targets that agree at key k
yields results that agree at key k. -/
theorem alookup_extendSkipUndef_congr (src : List (String × JSVal))
    (l1 l2 : List (String × JSVal)) (k : String)
    (h : alookup l1 k = alookup l2 k) :
    alookup (extendSkipUndef l1 src) k = alookup (extendSkipUndef l2 src) k := by
  induction src generalizing l1 l2 with
  | nil => exact h
  | cons p rest ih =>
    obtain ⟨k0, v0⟩ := p
    simp only [extendSkipUndef]
    split
    · exact ih _ _ h
    · apply ih
      by_cases hk : k0 = k
      · subst hk
        rw [alookup_setKey_self, alookup_setKey_self]
      · rw [alookup_setKey_ne _ _ _ _ hk, alookup_setKey_ne _ _ _ _ hk, h]

/-! Concrete configurations and parameter objects used by the closed
theorems below. -/

/-- A facade state as produced by construction: resolved url, basic
credentials, a pinned version, no default headers. -/
def o0 : SvcOptions :=
  { url := "https://gateway.watsonplatform.net/tone-analyzer/api"
    username := JSVal.str "user"
    password := JSVal.str "pass"
    version_date := JSVal.str "2017-09-21"
    qs := [("version", JSVal.str "2017-09-21")]
    headers := [] }

/-- tone parameters carrying a content_language header value. -/
def pToneEn : ParamsMap :=
  [("tone_input", JSVal.str "I am happy"),
   ("content_type", JSVal.str "text/plain"),
   ("content_language", JSVal.str "en")]

/-- tone parameters omitting content_language. -/
def pToneNoLang : ParamsMap :=
  [("tone_input", JSVal.str "so it goes"),
   ("content_type", JSVal.str "text/plain")]

/-- profile parameters with plain-text content and no optional score
flags. -/
def pProfilePlain : ParamsMap :=
  [("content", JSVal.str "some text to analyze"),
   ("content_type", JSVal.str "text/plain")]

/-- profile parameters with JSON content. -/
def pProfileJson : ParamsMap :=
  [("content", JSVal.str "content items"),
   ("content_type", JSVal.str "application/json")]

/-- classify parameters carrying only image bytes. -/
def pClassify : ParamsMap := [("images_file", JSVal.str "IMGBYTES")]

/-- createClassifier parameters with both required fields. -/
def pCreate : ParamsMap :=
  [("name", JSVal.str "dogs"),
   ("classname_positive_examples", JSVal.str "ZIPBYTES")]

/-- updateClassifier parameters with the required id and one example
file. -/
def pUpdate : ParamsMap :=
  [("classifier_id", JSVal.str "dogs_1234"),
   ("classname_positive_examples", JSVal.str "ZIPBYTES")]

/-- Construction options without a version date. -/
def ctorNoVersion : CtorOptions :=
  { url := none
    username := JSVal.str "user"
    password := JSVal.str "pass"
    version_date := JSVal.undef
    headers := [] }

/-- Construction options with a version date. -/
def ctorWithVersion : CtorOptions :=
  { ctorNoVersion with version_date := JSVal.str "2016-05-19" }

/-! Claim theorems. -/

/-- Claim C5: for every parameter mapping P and ordered required list R,
getMissingParams P R is exactly the subsequence of R whose keys are
absent from P or bound to the undefined sentinel (so false, 0 and the
empty string count as provided), in the order of R, and it is empty iff
every key of R is provided in P. -/
theorem claim5_getMissingParams_exact (P : ParamsMap) (R : List String) :
    (getMissingParams P R).Sublist R ∧
    (∀ k, k ∈ getMissingParams P R ↔ k ∈ R ∧ jget P k = JSVal.undef) ∧
    (getMissingParams P R = [] ↔ ∀ k ∈ R, jget P k ≠ JSVal.undef) := by
  refine ⟨List.filter_sublist R, ?_, ?_⟩
  · intro k
    simp [getMissingParams, List.mem_filter]
  · simp [getMissingParams, List.filter_eq_nil_iff]

/-- Claim C6: each of the three facade constructors fails synchronously
with its argument error exactly when the construction options lack a
version date, and succeeds when one is present. -/
theorem claim6_version_date_required (o : CtorOptions) :
    (o.version_date = JSVal.undef →
      PersonalityInsightsV3Generated.construct o =
        Except.error "Argument error: version_date was not specified" ∧
      ToneAnalyzerV3.construct o =
        Except.error "Argument error: version_date was not specified, use " ∧
      VisualRecognitionV3.construct o =
        Except.error "Argument error: version_date was not specified") ∧
    (o.version_date ≠ JSVal.undef →
      (∃ s, PersonalityInsightsV3Generated.construct o = Except.ok s) ∧
      (∃ s, ToneAnalyzerV3.construct o = Except.ok s) ∧
      (∃ s, VisualRecognitionV3.construct o = Except.ok s)) := by
  constructor
  · intro h
    refine ⟨?_, ?_, ?_⟩ <;>
      simp [PersonalityInsightsV3Generated.construct, ToneAnalyzerV3.construct,
        VisualRecognitionV3.construct, baseServiceInit, h]
  · intro h
    refine ⟨?_, ?_, ?_⟩ <;>
      simp [PersonalityInsightsV3Generated.construct, ToneAnalyzerV3.construct,
        VisualRecognitionV3.construct, baseServiceInit, h]

/-- Witness for claim C6 at concrete construction options: no version
date yields the Tone Analyzer argument error, a version date yields
success. -/
theorem claim6_witness :
    ToneAnalyzerV3.construct ctorNoVersion =
      Except.error "Argument error: version_date was not specified, use " ∧
    (∃ s, ToneAnalyzerV3.construct ctorWithVersion = Except.ok s) :=
  ⟨((claim6_version_date_required ctorNoVersion).1 (by decide)).2.1,
   ((claim6_version_date_required ctorWithVersion).2 (by decide)).2.1⟩

/-- Claim C3: when a callback is supplied and the required list has a
missing key, tone, profile and createClassifier each invoke the
callback exactly once with the missing-parameters error and dispatch
nothing, leaving the facade state untouched. -/
theorem claim3_missing_with_callback_stops (self : SvcOptions) (P : ParamsMap) :
    (getMissingParams P ["tone_input", "content_type"] ≠ [] →
      ToneAnalyzerV3.tone self P true =
        (OpOutcome.callbackError (getMissingParams P ["tone_input", "content_type"]),
         self)) ∧
    (getMissingParams P ["content", "content_type"] ≠ [] →
      PersonalityInsightsV3Generated.profile self P true =
        (OpOutcome.callbackError (getMissingParams P ["content", "content_type"]),
         self)) ∧
    (getMissingParams P ["name", "classname_positive_examples"] ≠ [] →
      VisualRecognitionV3.createClassifier self P true =
        (OpOutcome.callbackError
           (getMissingParams P ["name", "classname_positive_examples"]),
         self)) := by
  refine ⟨?_, ?_, ?_⟩ <;> intro h <;>
    simp [ToneAnalyzerV3.tone, PersonalityInsightsV3Generated.profile,
      VisualRecognitionV3.createClassifier, h]

/-- Witness for claim C3 at the empty parameter mapping. -/
theorem claim3_witness :
    ToneAnalyzerV3.tone o0 [] true =
      (OpOutcome.callbackError ["tone_input", "content_type"], o0) ∧
    PersonalityInsightsV3Generated.profile o0 [] true =
      (OpOutcome.callbackError ["content", "content_type"], o0) ∧
    VisualRecognitionV3.createClassifier o0 [] true =
      (OpOutcome.callbackError ["name", "classname_positive_examples"], o0) := by
  have h1 := (claim3_missing_with_callback_stops o0 []).1 (by decide)
  have h2 := (claim3_missing_with_callback_stops o0 []).2.1 (by decide)
  have h3 := (claim3_missing_with_callback_stops o0 []).2.2 (by decide)
  have e1 : getMissingParams [] ["tone_input", "content_type"] =
      ["tone_input", "content_type"] := by decide
  have e2 : getMissingParams [] ["content", "content_type"] =
      ["content", "content_type"] := by decide
  have e3 : getMissingParams [] ["name", "classname_positive_examples"] =
      ["name", "classname_positive_examples"] := by decide
  rw [e1] at h1
  rw [e2] at h2
  rw [e3] at h3
  exact ⟨h1, h2, h3⟩

/-- Claim C2 is refuted by the code: with the empty parameter mapping
(both required keys missing) and no callback, tone, profile and
createClassifier do not raise; each falls through validation and
forwards a call descriptor to the request helper. -/
theorem claim2_missing_without_callback_dispatches :
    getMissingParams [] ["tone_input", "content_type"] ≠ [] ∧
    (∃ r s, (ToneAnalyzerV3.tone o0 [] false).1 = OpOutcome.dispatched r s) ∧
    (∃ r s, (PersonalityInsightsV3Generated.profile o0 [] false).1 =
       OpOutcome.dispatched r s) ∧
    (∃ r s, (VisualRecognitionV3.createClassifier o0 [] false).1 =
       OpOutcome.dispatched r s) := by
  refine ⟨by decide, ⟨_, _, rfl⟩, ⟨_, _, rfl⟩, ⟨_, _, rfl⟩⟩

/-- Claim C1 is refuted by the code: extend(true, this._options, ...)
merges each call's headers into the shared options object, so the
configuration state is not the one set at construction. Concretely: the
constructed state has no content-language header; after one tone call
with content_language en the facade state differs from the constructed
state and carries that header; a second tone call that omits
content_language then dispatches defaultOptions still carrying the
first call's content-language. profile mutates its facade state the
same way. -/
theorem claim1_options_mutated_across_calls :
    alookup o0.headers "content-language" = none ∧
    (ToneAnalyzerV3.tone o0 pToneEn true).2 ≠ o0 ∧
    alookup (ToneAnalyzerV3.tone o0 pToneEn true).2.headers "content-language" =
      some (JSVal.str "en") ∧
    (∃ r s,
      (ToneAnalyzerV3.tone (ToneAnalyzerV3.tone o0 pToneEn true).2 pToneNoLang true).1 =
        OpOutcome.dispatched r s ∧
      alookup s.headers "content-language" = some (JSVal.str "en")) ∧
    (PersonalityInsightsV3Generated.profile o0 pProfilePlain true).2 ≠ o0 := by
  refine ⟨by decide, by decide, by decide, ⟨_, _, rfl, by decide⟩, by decide⟩

/-- Claim C7: for profile and tone calls whose required parameters are
all present, the call dispatches a descriptor whose json flag is true
exactly when content_type is the string application/json; for text and
html content types the flag is false; and the body is always the
caller-supplied content, unchanged. -/
theorem claim7_json_flag_and_verbatim_body (self : SvcOptions) (P : ParamsMap)
    (cb : Bool) :
    (getMissingParams P ["content", "content_type"] = [] →
      ∃ s, PersonalityInsightsV3Generated.profile self P cb =
        (OpOutcome.dispatched (PersonalityInsightsV3Generated.profileRequest self P).1 s,
         s)) ∧
    ((PersonalityInsightsV3Generated.profileRequest self P).1.json = true ↔
      jget P "content_type" = JSVal.str "application/json") ∧
    (jget P "content_type" = JSVal.str "text/plain" ∨
        jget P "content_type" = JSVal.str "text/html" →
      (PersonalityInsightsV3Generated.profileRequest self P).1.json = false) ∧
    (PersonalityInsightsV3Generated.profileRequest self P).1.body = jget P "content" ∧
    (getMissingParams P ["tone_input", "content_type"] = [] →
      ∃ s, ToneAnalyzerV3.tone self P cb =
        (OpOutcome.dispatched (ToneAnalyzerV3.toneRequest self P).1 s, s)) ∧
    ((ToneAnalyzerV3.toneRequest self P).1.json = true ↔
      jget P "content_type" = JSVal.str "application/json") ∧
    (jget P "content_type" = JSVal.str "text/plain" ∨
        jget P "content_type" = JSVal.str "text/html" →
      (ToneAnalyzerV3.toneRequest self P).1.json = false) ∧
    (ToneAnalyzerV3.toneRequest self P).1.body = jget P "tone_input" := by
  refine ⟨?_, ?_, ?_, rfl, ?_, ?_, ?_, rfl⟩
  · intro h
    refine ⟨(PersonalityInsightsV3Generated.profileRequest self P).2, ?_⟩
    simp [PersonalityInsightsV3Generated.profile, h]
  · simp [PersonalityInsightsV3Generated.profileRequest]
  · rintro (h | h) <;>
      simp [PersonalityInsightsV3Generated.profileRequest, h]
  · intro h
    refine ⟨(ToneAnalyzerV3.toneRequest self P).2, ?_⟩
    simp [ToneAnalyzerV3.tone, h]
  · simp [ToneAnalyzerV3.toneRequest]
  · rintro (h | h) <;> simp [ToneAnalyzerV3.toneRequest, h]

/-- Witness for claim C7: a JSON profile call has the json flag set and
a plain-text tone call does not, each with the body verbatim. -/
theorem claim7_witness :
    (∃ s, PersonalityInsightsV3Generated.profile o0 pProfileJson true =
      (OpOutcome.dispatched
         (PersonalityInsightsV3Generated.profileRequest o0 pProfileJson).1 s, s)) ∧
    (PersonalityInsightsV3Generated.profileRequest o0 pProfileJson).1.json = true ∧
    (ToneAnalyzerV3.toneRequest o0 pToneEn).1.json = false ∧
    (ToneAnalyzerV3.toneRequest o0 pToneEn).1.body = JSVal.str "I am happy" := by
  refine ⟨(claim7_json_flag_and_verbatim_body o0 pProfileJson true).1 (by decide),
    ((claim7_json_flag_and_verbatim_body o0 pProfileJson true).2.1).2 (by decide),
    (claim7_json_flag_and_verbatim_body o0 pToneEn true).2.2.2.2.2.2.1
      (Or.inl (by decide)), by decide⟩

/-- One merge step for a defined source property. -/
theorem extendSkipUndef_cons_def (l : List (String × JSVal)) (k : String)
    (v : JSVal) (rest : List (String × JSVal)) (hv : v ≠ JSVal.undef) :
    extendSkipUndef l ((k, v) :: rest) = extendSkipUndef (setKey l k v) rest := by
  simp [extendSkipUndef, hv]

/-- Reading the accept header after merging the four-header object the
profile-shaped operations build: the merged accept value wins whatever
the target held and whatever the three other header values are. -/
theorem alookup_merged_accept (l : List (String × JSVal)) (a ct cl al : JSVal)
    (ha : a ≠ JSVal.undef) :
    alookup (extendSkipUndef l
      [("accept", a), ("content-type", ct),
       ("content-language", cl), ("accept-language", al)]) "accept" = some a := by
  rw [extendSkipUndef_cons_def _ _ _ _ ha,
    alookup_extendSkipUndef_ne _ _ _ ?_, alookup_setKey_self]
  intro p hp
  fin_cases hp <;> simp

/-- Merging the four-header objects of profile and profile_csv, which
differ only in the accept value, gives headers that agree at every key
other than accept. -/
theorem alookup_merged_except_accept (l : List (String × JSVal))
    (a b ct cl al : JSVal) (ha : a ≠ JSVal.undef) (hb : b ≠ JSVal.undef)
    (k : String) (hk : k ≠ "accept") :
    alookup (extendSkipUndef l
      [("accept", a), ("content-type", ct),
       ("content-language", cl), ("accept-language", al)]) k =
    alookup (extendSkipUndef l
      [("accept", b), ("content-type", ct),
       ("content-language", cl), ("accept-language", al)]) k := by
  rw [extendSkipUndef_cons_def _ _ _ _ ha, extendSkipUndef_cons_def _ _ _ _ hb]
  apply alookup_extendSkipUndef_congr
  rw [alookup_setKey_ne _ _ _ _ (Ne.symm hk), alookup_setKey_ne _ _ _ _ (Ne.symm hk)]

/-- Claim C8: every profile_csv call with the required parameters
present dispatches defaultOptions whose accept header is text/csv,
whatever content_type (JSON, plain text or HTML) the caller supplied. -/
theorem claim8_profile_csv_accepts_csv (self : SvcOptions) (P : ParamsMap)
    (cb : Bool) (h : getMissingParams P ["content", "content_type"] = []) :
    ∃ r s, PersonalityInsightsV3.profile_csv self P cb =
        (OpOutcome.dispatched r s, s) ∧
      alookup s.headers "accept" = some (JSVal.str "text/csv") := by
  refine ⟨(PersonalityInsightsV3.profileCsvRequest self P).1,
    (PersonalityInsightsV3.profileCsvRequest self P).2, ?_, ?_⟩
  · simp [PersonalityInsightsV3.profile_csv, h]
  · show alookup (extendSkipUndef self.headers _) "accept" = _
    exact alookup_merged_accept _ _ _ _ _ (by simp)

/-- Witness for claim C8 with JSON body content. -/
theorem claim8_witness :
    ∃ r s, PersonalityInsightsV3.profile_csv o0 pProfileJson true =
        (OpOutcome.dispatched r s, s) ∧
      alookup s.headers "accept" = some (JSVal.str "text/csv") :=
  claim8_profile_csv_accepts_csv o0 pProfileJson true (by decide)

/-- Claim C10: with content and content_type present, profile and
profile_csv dispatch descriptors that are equal in every component
(url /v3/profile, method POST, json flag, body, query mapping) and
defaultOptions that agree everywhere except exactly the accept header:
application/json for profile, text/csv for profile_csv. -/
theorem claim10_profile_csv_differs_only_in_accept (self : SvcOptions)
    (P : ParamsMap) (cb : Bool)
    (h : getMissingParams P ["content", "content_type"] = []) :
    (∃ s, PersonalityInsightsV3Generated.profile self P cb =
      (OpOutcome.dispatched
         (PersonalityInsightsV3Generated.profileRequest self P).1 s, s)) ∧
    (∃ s, PersonalityInsightsV3.profile_csv self P cb =
      (OpOutcome.dispatched
         (PersonalityInsightsV3.profileCsvRequest self P).1 s, s)) ∧
    (PersonalityInsightsV3Generated.profileRequest self P).1 =
      (PersonalityInsightsV3.profileCsvRequest self P).1 ∧
    (PersonalityInsightsV3Generated.profileRequest self P).1.url = "/v3/profile" ∧
    (PersonalityInsightsV3Generated.profileRequest self P).1.method = "POST" ∧
    (PersonalityInsightsV3Generated.profileRequest self P).2.url =
      (PersonalityInsightsV3.profileCsvRequest self P).2.url ∧
    (PersonalityInsightsV3Generated.profileRequest self P).2.qs =
      (PersonalityInsightsV3.profileCsvRequest self P).2.qs ∧
    (PersonalityInsightsV3Generated.profileRequest self P).2.username =
      (PersonalityInsightsV3.profileCsvRequest self P).2.username ∧
    (PersonalityInsightsV3Generated.profileRequest self P).2.password =
      (PersonalityInsightsV3.profileCsvRequest self P).2.password ∧
    (∀ k, k ≠ "accept" →
      alookup (PersonalityInsightsV3Generated.profileRequest self P).2.headers k =
        alookup (PersonalityInsightsV3.profileCsvRequest self P).2.headers k) ∧
    alookup (PersonalityInsightsV3Generated.profileRequest self P).2.headers
      "accept" = some (JSVal.str "application/json") ∧
    alookup (PersonalityInsightsV3.profileCsvRequest self P).2.headers
      "accept" = some (JSVal.str "text/csv") := by
  refine ⟨⟨(PersonalityInsightsV3Generated.profileRequest self P).2, ?_⟩,
    ⟨(PersonalityInsightsV3.profileCsvRequest self P).2, ?_⟩,
    rfl, rfl, rfl, rfl, rfl, rfl, rfl, ?_, ?_, ?_⟩
  · simp [PersonalityInsightsV3Generated.profile, h]
  · simp [PersonalityInsightsV3.profile_csv, h]
  · intro k hk
    show alookup (extendSkipUndef self.headers _) k =
      alookup (extendSkipUndef self.headers _) k
    exact alookup_merged_except_accept _ _ _ _ _ _ (by simp) (by simp) k hk
  · show alookup (extendSkipUndef self.headers _) "accept" = _
    exact alookup_merged_accept _ _ _ _ _ (by simp)
  · show alookup (extendSkipUndef self.headers _) "accept" = _
    exact alookup_merged_accept _ _ _ _ _ (by simp)

/-- Witness for claim C10 at concrete plain-text parameters, taking the
descriptor equality, the content-type header agreement and the two
accept header values from the theorem. -/
theorem claim10_witness :
    (PersonalityInsightsV3Generated.profileRequest o0 pProfilePlain).1 =
      (PersonalityInsightsV3.profileCsvRequest o0 pProfilePlain).1 ∧
    alookup (PersonalityInsightsV3Generated.profileRequest o0 pProfilePlain).2.headers
        "content-type" =
      alookup (PersonalityInsightsV3.profileCsvRequest o0 pProfilePlain).2.headers
        "content-type" ∧
    alookup (PersonalityInsightsV3Generated.profileRequest o0 pProfilePlain).2.headers
      "accept" = some (JSVal.str "application/json") ∧
    alookup (PersonalityInsightsV3.profileCsvRequest o0 pProfilePlain).2.headers
      "accept" = some (JSVal.str "text/csv") := by
  have h := claim10_profile_csv_differs_only_in_accept o0 pProfilePlain true (by decide)
  exact ⟨h.2.2.1, h.2.2.2.2.2.2.2.2.2.1 "content-type" (by decide),
    h.2.2.2.2.2.2.2.2.2.2.1, h.2.2.2.2.2.2.2.2.2.2.2⟩

/-- Claim C4 counterexample: profile called without raw_scores builds a
descriptor whose query mapping does contain the raw_scores key (bound
to the undefined sentinel), and classify called without parameters
builds form data containing the parameters key, contrary to the claim
that the key is absent altogether. -/
theorem claim4_counterexample :
    ("raw_scores", JSVal.undef) ∈
      (PersonalityInsightsV3Generated.profileRequest o0 pProfilePlain).1.qs ∧
    (∃ r s, (PersonalityInsightsV3Generated.profile o0 pProfilePlain true).1 =
        OpOutcome.dispatched r s ∧ ("raw_scores", JSVal.undef) ∈ r.qs) ∧
    (∃ r s, (VisualRecognitionV3.classify o0 pClassify).1 =
        OpOutcome.dispatched r s ∧
      ("parameters", FormVal.plain JSVal.undef) ∈ r.formData) := by
  exact ⟨by decide, ⟨_, _, rfl, by decide⟩, ⟨_, _, rfl, by decide⟩⟩

/-- Claim C4 amended: an optional parameter the caller omits is still a
key of the constructed query or form mapping, but it is bound to the
undefined sentinel — never to a defined value such as null or the empty
string; omission from the wire is the serialization layer's treatment
of undefined, not absence from the descriptor. -/
theorem claim4_amended_optional_bound_to_undef (self : SvcOptions) (P : ParamsMap) :
    (∀ k ∈ ["raw_scores", "csv_headers", "consumption_preferences"],
      jget P k = JSVal.undef →
        alookup (PersonalityInsightsV3Generated.profileRequest self P).1.qs k =
          some JSVal.undef) ∧
    (jget P "parameters" = JSVal.undef →
      ∃ r s, (VisualRecognitionV3.classify self P).1 = OpOutcome.dispatched r s ∧
        alookup r.formData "parameters" = some (FormVal.plain JSVal.undef)) := by
  constructor
  · intro k hk habs
    fin_cases hk <;>
      simp [PersonalityInsightsV3Generated.profileRequest, alookup, habs]
  · intro habs
    refine ⟨_, _, rfl, ?_⟩
    simp [alookup, habs]

/-- Witness for the amended claim C4 at concrete inputs. -/
theorem claim4_witness :
    alookup (PersonalityInsightsV3Generated.profileRequest o0 pProfilePlain).1.qs
      "raw_scores" = some JSVal.undef ∧
    (∃ r s, (VisualRecognitionV3.classify o0 pClassify).1 =
        OpOutcome.dispatched r s ∧
      alookup r.formData "parameters" = some (FormVal.plain JSVal.undef)) :=
  ⟨(claim4_amended_optional_bound_to_undef o0 pProfilePlain).1 "raw_scores"
      (by decide) (by decide),
   (claim4_amended_optional_bound_to_undef o0 pClassify).2 (by decide)⟩

/-- Claim C9 is refuted for classify and detectFaces: their images_file
attachment declares the 26-character content type that includes literal
double-quote characters, not application/octet-stream; the
createClassifier and updateClassifier attachments declare the unquoted
string as the claim states. -/
theorem claim9_quoted_default_content_type :
    (∃ r s, (VisualRecognitionV3.classify o0 pClassify).1 =
        OpOutcome.dispatched r s ∧
      alookup r.formData "images_file" =
        some (FormVal.file (JSVal.str "IMGBYTES") "\"application/octet-stream\"")) ∧
    (∃ r s, (VisualRecognitionV3.detectFaces o0 pClassify).1 =
        OpOutcome.dispatched r s ∧
      alookup r.formData "images_file" =
        some (FormVal.file (JSVal.str "IMGBYTES") "\"application/octet-stream\"")) ∧
    (∃ r s, (VisualRecognitionV3.createClassifier o0 pCreate true).1 =
        OpOutcome.dispatched r s ∧
      alookup r.formData "classname_positive_examples" =
        some (FormVal.file (JSVal.str "ZIPBYTES") "application/octet-stream")) ∧
    (∃ r s, (VisualRecognitionV3.updateClassifier o0 pUpdate true).1 =
        OpOutcome.dispatched r s ∧
      alookup r.formData "classname_positive_examples" =
        some (FormVal.file (JSVal.str "ZIPBYTES") "application/octet-stream")) ∧
    ("\"application/octet-stream\"" : String) ≠ "application/octet-stream" := by
  exact ⟨⟨_, _, rfl, by decide⟩, ⟨_, _, rfl, by decide⟩, ⟨_, _, rfl, by decide⟩,
    ⟨_, _, rfl, by decide⟩, by decide⟩

/-- Witness for claim C5: concrete mappings showing a missing key is
reported and a fully provided mapping validates as empty. -/
theorem claim5_witness :
    "name" ∈ getMissingParams pClassify ["name", "classname_positive_examples"] ∧
    getMissingParams pCreate ["name", "classname_positive_examples"] = [] :=
  ⟨((claim5_getMissingParams_exact pClassify
      ["name", "classname_positive_examples"]).2.1 "name").2
      ⟨by decide, by decide⟩,
   (claim5_getMissingParams_exact pCreate
      ["name", "classname_positive_examples"]).2.2.2 (by decide)⟩
